import Mathlib

set_option autoImplicit false

namespace EsgParsers

/-!  Shallow embedding of the `esg-parsers` repository, claim by claim.

The definitions below are translated from the Python source under
`esg_parsers/`:
* `parsers/vedomosti.py` — `VedomostiParser._make_request_with_retry`,
  `VedomostiParser._parse_date`, the User-Agent pool;
* `parsers/base.py` / `parsers/super_base.py` — `clean_text`;
* `scraper/scraper.py` — `Scraper.merge_results`, `Scraper.run_parsers`,
  `Scraper._save_temp_results`;
* `utils/csv.py` — `read_news_requests`.
-/

/-! ## Retry policy (`VedomostiParser._make_request_with_retry`)

The transport (`requests.get`) is modelled as a function from the attempt
index to its outcome: an HTTP response with a status code, or a raised
`requests.RequestException`. -/

/-- Outcome of one transport call: an HTTP response carrying a status code,
or a transport-level exception (`requests.RequestException`). -/
inductive TResp where
  | status (code : Nat)
  | exc
  deriving DecidableEq, Repr

/-- What `_make_request_with_retry` can do: return a response, return the
`None` sentinel after exhausting retries on 418, or let an exception
propagate out of the wrapper (the bare `raise` on the last attempt). -/
inductive RetryResult where
  | success (code : Nat)
  | noResponse
  | raised
  deriving DecidableEq, Repr

/-- `self.max_retries = 5` in `VedomostiParser.__init__`. -/
def maxRetries : Nat := 5

/-- The `for attempt in range(self.max_retries)` loop of
`_make_request_with_retry`, starting at a given attempt index with a given
number of loop iterations remaining.  Returns the result together with the
number of transport calls actually made.  On status 418 it sleeps and
continues; on any other status it returns the response; on a
`RequestException` it continues unless this is the last attempt
(`attempt < max_retries - 1` fails), in which case it re-raises.  Falling
off the loop returns `None`. -/
def retryFrom (transport : Nat → TResp) (attempt : Nat) : Nat → RetryResult × Nat
  | 0 => (.noResponse, 0)
  | remaining + 1 =>
    match transport attempt with
    | .status code =>
      if code = 418 then
        let rest := retryFrom transport (attempt + 1) remaining
        (rest.1, rest.2 + 1)
      else
        (.success code, 1)
    | .exc =>
      if attempt < maxRetries - 1 then
        let rest := retryFrom transport (attempt + 1) remaining
        (rest.1, rest.2 + 1)
      else
        (.raised, 1)

/-- `_make_request_with_retry`: run the loop from attempt 0 with
`max_retries` iterations available. -/
def makeRequestWithRetry (transport : Nat → TResp) : RetryResult × Nat :=
  retryFrom transport 0 maxRetries

/-- A stub transport that returns HTTP 418 for the first `k` calls and then
status `code` on every later call. -/
def stub418 (k code : Nat) : Nat → TResp :=
  fun i => if i < k then .status 418 else .status code

/-- C1: with a stub transport returning 418 for the first `k < 5` calls and
then a successful response, the retry wrapper returns that response after
exactly `k + 1` calls; with a stub that always returns 418, it returns the
`None` sentinel after exactly 5 calls. -/
theorem retry_policy_counts (k code : Nat) (hk : k < maxRetries) (hc : code ≠ 418) :
    makeRequestWithRetry (stub418 k code) = (.success code, k + 1) ∧
    makeRequestWithRetry (fun _ => .status 418) = (.noResponse, maxRetries) := by
  constructor
  · have hk5 : k < 5 := hk
    interval_cases k <;>
      simp [makeRequestWithRetry, retryFrom, stub418, maxRetries, hc]
  · rfl

/-- Witness for C1 at `k = 2`, `code = 200`. -/
theorem retry_policy_counts_witness :
    makeRequestWithRetry (stub418 2 200) = (.success 200, 3) :=
  (retry_policy_counts 2 200 (by decide) (by decide)).1

/-- C2 counterexample: a transport that raises a connection error on every
call.  The wrapper does NOT return the `None` sentinel: on the last attempt
(`attempt = max_retries - 1`) the `except` branch executes a bare `raise`,
so the exception propagates past the wrapper after 5 calls. -/
theorem retry_policy_raises_on_conn_exhaustion :
    makeRequestWithRetry (fun _ => .exc) = (.raised, 5) ∧
    makeRequestWithRetry (fun _ => .exc) ≠ (.noResponse, 5) := by
  constructor <;> decide

/-- C2 amended: on HTTP 418 or a connection error the wrapper retries, and
it never makes more than 5 transport calls; on 418-exhaustion it returns the
`None` sentinel after 5 calls; but on connection-error exhaustion it
re-raises the exception (after 5 calls) instead of returning the sentinel. -/
theorem retry_policy_boundary :
    (∀ transport : Nat → TResp, (makeRequestWithRetry transport).2 ≤ maxRetries) ∧
    makeRequestWithRetry (fun _ => .status 418) = (.noResponse, maxRetries) ∧
    makeRequestWithRetry (fun _ => .exc) = (.raised, maxRetries) := by
  refine ⟨?_, rfl, rfl⟩
  have aux : ∀ (remaining : Nat) (transport : Nat → TResp) (attempt : Nat),
      (retryFrom transport attempt remaining).2 ≤ remaining := by
    intro remaining
    induction remaining with
    | zero => intro transport attempt; simp [retryFrom]
    | succ r ih =>
      intro transport attempt
      simp only [retryFrom]
      cases transport attempt with
      | status code =>
        by_cases h : code = 418 <;>
          simp [h, Nat.succ_le_succ (ih transport (attempt + 1))]
      | exc =>
        by_cases h : attempt < maxRetries - 1 <;>
          simp [h, Nat.succ_le_succ (ih transport (attempt + 1))]
  intro transport
  exact aux maxRetries transport 0

/-! ## Result merger (`Scraper.merge_results`)

A partial result file is modelled by its size in bytes and its parsed rows
(each row a list of tab-separated fields), header row included.  The merged
output is the list of kept data rows; `merge_results` also writes a fixed
header once and keeps a running article count. -/

/-- A partial result file: its on-disk byte size (used by the
`os.path.getsize(temp_file) < 10` check) and the rows the CSV reader yields,
the header row included. -/
structure TempFile where
  size : Nat
  rows : List (List String)
  deriving DecidableEq, Repr

/-- The fixed header row written by `_save_temp_results` and
`merge_results`. -/
def csvHeader : List String :=
  ["link", "pubdate", "article_body", "title", "parser", "keyword"]

/-- The per-row keep/pad/drop decision inside the merge loop: a row with
`len(row) >= 6` is written unchanged; a row with exactly 5 fields gets an
empty `keyword` appended and is written; any shorter row is skipped. -/
def keepRow (row : List String) : Option (List String) :=
  if row.length ≥ 6 then some row
  else if row.length = 5 then some (row ++ [""])
  else none

/-- Processing of one temp file by `merge_results`: files smaller than 10
bytes are skipped entirely; otherwise the header row is skipped
(`next(reader, None)`) and every remaining row goes through `keepRow`. -/
def mergeFileRows (f : TempFile) : List (List String) :=
  if f.size < 10 then []
  else (f.rows.drop 1).filterMap keepRow

/-- The loop of `merge_results` over the temp files, accumulating the merged
data rows and the `total_articles` counter. -/
def mergeLoop : List TempFile → List (List String) × Nat
  | [] => ([], 0)
  | f :: fs =>
    let kept := mergeFileRows f
    let rest := mergeLoop fs
    (kept ++ rest.1, kept.length + rest.2)

/-- `Scraper.merge_results` on the contents of the temp files: the merged
file's rows (a single header followed by all kept data rows) and the
reported `total_articles` count. -/
def mergeResults (files : List TempFile) : List (List String) × Nat :=
  (csvHeader :: (mergeLoop files).1, (mergeLoop files).2)

/-- A data row with 4 fields (too short: dropped by the merger). -/
def row4 : List String := ["u", "d", "b", "t"]

/-- A data row with 5 fields (legacy schema: padded by the merger). -/
def row5 : List String := ["u", "d", "b", "t", "p"]

/-- A data row with 6 fields (current schema: kept unchanged). -/
def row6 : List String := ["u", "d", "b", "t", "p", "k"]

/-- A data row with 7 fields. -/
def row7 : List String := ["u", "d", "b", "t", "p", "k", "extra"]

/-- C3 counterexample: the claim says a row with more than 6 fields is
dropped, but the merge loop tests `len(row) >= 6`, so a 7-field row is kept
unchanged: a file holding just the header and one 7-field row contributes
that row to the merged output (and it is counted). -/
theorem merge_keeps_seven_field_row :
    mergeResults [⟨100, [csvHeader, row7]⟩] = ([csvHeader, row7], 1) := by
  decide

/-- C3 amended: a row with 6 or more fields is kept unchanged, a row with
exactly 5 fields has an empty 6th field appended and is kept, and a row with
fewer than 5 fields is dropped; in particular a file containing one 4-field,
one 5-field and one 6-field row contributes exactly two rows (the padded
5-field row and the 6-field row) to the merged output. -/
theorem merge_row_schema (row : List String) :
    (row.length ≥ 6 → keepRow row = some row) ∧
    (row.length = 5 → keepRow row = some (row ++ [""])) ∧
    (row.length < 5 → keepRow row = none) ∧
    mergeResults [⟨100, [csvHeader, row4, row5, row6]⟩] =
      ([csvHeader, row5 ++ [""], row6], 2) := by
  refine ⟨?_, ?_, ?_, by decide⟩
  · intro h; simp [keepRow, h]
  · intro h; simp [keepRow, h]
  · intro h
    have h6 : ¬ row.length ≥ 6 := by omega
    have h5 : ¬ row.length = 5 := by omega
    simp [keepRow, h6, h5]

/-- Witness for C3's amended theorem at the concrete rows `row6`, `row5`,
`row4`. -/
theorem merge_row_schema_witness :
    keepRow row6 = some row6 ∧
    keepRow row5 = some (row5 ++ [""]) ∧
    keepRow row4 = none :=
  ⟨(merge_row_schema row6).1 (by decide),
   (merge_row_schema row5).2.1 (by decide),
   (merge_row_schema row4).2.2.1 (by decide)⟩

/-- The kept rows of the merged output are exactly the concatenation of each
input file's kept rows, in input order. -/
theorem mergeLoop_eq_flatMap (files : List TempFile) :
    (mergeLoop files).1 = files.flatMap mergeFileRows := by
  induction files with
  | nil => rfl
  | cons f fs ih => simp [mergeLoop, ih]

/-- C7: merging the same list of partial result files twice yields identical
outputs, because the merged rows are a function of the input files' contents
alone — explicitly, the header followed by the concatenation of each file's
kept rows. -/
theorem merge_deterministic (files₁ files₂ : List TempFile) (h : files₁ = files₂) :
    mergeResults files₁ = mergeResults files₂ ∧
    (mergeResults files₁).1 = csvHeader :: files₁.flatMap mergeFileRows := by
  subst h
  exact ⟨rfl, by simp [mergeResults, mergeLoop_eq_flatMap]⟩

/-- Witness for C7 at a concrete two-file input. -/
theorem merge_deterministic_witness :
    mergeResults [⟨100, [csvHeader, row6]⟩, ⟨3, [csvHeader, row6]⟩] =
      mergeResults [⟨100, [csvHeader, row6]⟩, ⟨3, [csvHeader, row6]⟩] :=
  (merge_deterministic [⟨100, [csvHeader, row6]⟩, ⟨3, [csvHeader, row6]⟩]
    [⟨100, [csvHeader, row6]⟩, ⟨3, [csvHeader, row6]⟩] rfl).1

/-- The name of the merged output file inside the run-scoped directory. -/
def mergedFileName : String := "merged_results.csv"

/-- `os.path.join` for the one shape used here. -/
def joinPath (dir name : String) : String := dir ++ "/" ++ name

/-- `Scraper.merge_results` including its guard on `self.temp_dir`: if no
partial write ever initialized the run-scoped directory, it raises
`ValueError("No temporary directory exists. Run parsers first.")`; otherwise
it creates `merged_results.csv` inside that directory and merges into it. -/
def mergeResultsChecked (tempDir : Option String) (files : List TempFile) :
    Except String (String × (List (List String) × Nat)) :=
  match tempDir with
  | none => .error "No temporary directory exists. Run parsers first."
  | some d => .ok (joinPath d mergedFileName, mergeResults files)

/-- C9: with an uninitialized run directory `merge_results` fails with a
`ValueError` and produces no merged file; when the directory exists, the
merged file is created at `<temp_dir>/merged_results.csv`, inside the
run-scoped directory. -/
theorem merge_requires_temp_dir :
    (∀ files, mergeResultsChecked none files =
      .error "No temporary directory exists. Run parsers first.") ∧
    (∀ d files, mergeResultsChecked (some d) files =
      .ok (d ++ "/" ++ mergedFileName, mergeResults files)) :=
  ⟨fun _ => rfl, fun _ _ => rfl⟩

/-! ## Request catalog loader (`utils/csv.py`, `read_news_requests`) -/

/-- A calendar date (`datetime(year, month, day)` with zero time). -/
structure Date where
  year : Nat
  month : Nat
  day : Nat
  deriving DecidableEq, Repr

/-- `models.CompanyDateRange`. -/
structure CompanyDateRange where
  company : String
  start_date : Date
  end_date : Date
  deriving DecidableEq, Repr

/-- One row of `data/request.csv`, already unpacked as
`company, year, has_rating, source = row`. -/
structure CatalogRow where
  company : String
  year : String
  has_rating : String
  source : String
  deriving DecidableEq, Repr

/-- `str.upper()` (the catalog flags are ASCII). -/
def pyUpper (s : String) : String :=
  String.mk (s.data.map Char.toUpper)

/-- The literal the loader compares `source` against: the "News" category
marker, which in the source is the Russian string `'Новости'`. -/
def newsSourceLabel : String := "Новости"

/-- `int(s)` for a plain digit string; `none` models the `ValueError` that
`int` raises on a non-numeric string. -/
def pyInt? (s : String) : Option Nat :=
  if s.data ≠ [] ∧ s.data.all Char.isDigit then
    some (s.data.foldl (fun a c => a * 10 + (c.toNat - 48)) 0)
  else none

/-- `int('20' + year)`. -/
def parseCatalogYear (y : String) : Option Nat :=
  pyInt? ("20" ++ y)

/-- The row loop of `read_news_requests`: rows passing the filter
`has_rating.upper() == 'TRUE' and source == 'Новости'` are expanded into a
`CompanyDateRange` spanning Jan 1 – Dec 31 of year `20<year-suffix>`;
other rows are skipped. -/
def read_news_requests : List CatalogRow → Except String (List CompanyDateRange)
  | [] => .ok []
  | row :: rows =>
    if pyUpper row.has_rating = "TRUE" ∧ row.source = newsSourceLabel then
      match parseCatalogYear row.year with
      | none => .error "ValueError"
      | some y =>
        match read_news_requests rows with
        | .error e => .error e
        | .ok rs => .ok (⟨row.company, ⟨y, 1, 1⟩, ⟨y, 12, 31⟩⟩ :: rs)
    else
      read_news_requests rows

/-- C4: every catalog row whose rating flag upper-cases to `TRUE` and whose
source label is the News marker yields a `CompanyDateRange` spanning Jan 1 –
Dec 31 of the expanded year; concretely `("Acme", "23", "TRUE", <News>)`
yields `("Acme", 2023-01-01, 2023-12-31)`, and a `FALSE` flag yields no
range at all. -/
theorem catalog_loader_spec (row : CatalogRow) (y : Nat)
    (htrue : pyUpper row.has_rating = "TRUE")
    (hsrc : row.source = newsSourceLabel)
    (hy : parseCatalogYear row.year = some y) :
    read_news_requests [row] = .ok [⟨row.company, ⟨y, 1, 1⟩, ⟨y, 12, 31⟩⟩] ∧
    read_news_requests [⟨"Acme", "23", "TRUE", newsSourceLabel⟩] =
      .ok [⟨"Acme", ⟨2023, 1, 1⟩, ⟨2023, 12, 31⟩⟩] ∧
    read_news_requests [⟨"Acme", "23", "FALSE", newsSourceLabel⟩] = .ok [] := by
  refine ⟨?_, rfl, rfl⟩
  simp [read_news_requests, htrue, hsrc, hy]

/-- Witness for C4 at the concrete row `("Acme", "23", "TRUE", <News>)`. -/
theorem catalog_loader_spec_witness :
    read_news_requests [⟨"Acme", "23", "TRUE", newsSourceLabel⟩] =
      .ok [⟨"Acme", ⟨2023, 1, 1⟩, ⟨2023, 12, 31⟩⟩] :=
  (catalog_loader_spec ⟨"Acme", "23", "TRUE", newsSourceLabel⟩ 2023
    rfl rfl rfl).1

/-! ## Parallel run coordinator (`Scraper.run_parsers`)

Each scheduled `(request, adapter)` task is modelled by the data its result
callback uses: the company, the parser name, the date strings used in the
output filename, and the outcome of `future.result()` — either the parsed
article list or a raised exception. -/

/-- Outcome of one task's `future.result()`. -/
inductive TaskOutcome where
  | ok (articles : List String)
  | err
  deriving DecidableEq, Repr

/-- One scheduled `(request, adapter)` task. -/
structure ScrapeTask where
  company : String
  parserName : String
  startDate : String
  endDate : String
  outcome : TaskOutcome
  deriving DecidableEq, Repr

/-- `filename.replace(':', '_').replace(' ', '_')`. -/
def sanitizeFilename (s : String) : String :=
  String.mk (s.data.map fun c => if c = ':' ∨ c = ' ' then '_' else c)

/-- The path `_save_temp_results` returns for a task:
`{company}_{parser}_{start}_{end}.csv`, sanitized. -/
def savePath (t : ScrapeTask) : String :=
  sanitizeFilename
    (t.company ++ "_" ++ t.parserName ++ "_" ++ t.startDate ++ "_" ++ t.endDate ++ ".csv")

/-- True iff the task's outcome is a raised exception. -/
def isErrTask (t : ScrapeTask) : Bool :=
  match t.outcome with
  | .err => true
  | .ok _ => false

/-- True iff `process_parser_result` writes a file for this task: the task
succeeded and returned a non-empty article list. -/
def producesFile (t : ScrapeTask) : Bool :=
  match t.outcome with
  | .ok articles => !articles.isEmpty
  | .err => false

/-- The `as_completed` consumption loop of `run_parsers`
(`process_parser_result` per task): a successful task with articles appends
its temp-file path; a successful empty task appends nothing; a raised task
is caught and logged.  In every case the progress counter advances by one.
Returns the collected temp-file paths and the final progress count. -/
def runParsersLoop : List ScrapeTask → List String × Nat
  | [] => ([], 0)
  | t :: ts =>
    let rest := runParsersLoop ts
    match t.outcome with
    | .ok articles =>
      if articles.isEmpty then (rest.1, rest.2 + 1)
      else (savePath t :: rest.1, rest.2 + 1)
    | .err => (rest.1, rest.2 + 1)

/-- The progress counter advances once per completed task. -/
theorem runParsersLoop_progress (tasks : List ScrapeTask) :
    (runParsersLoop tasks).2 = tasks.length := by
  induction tasks with
  | nil => rfl
  | cons t ts ih =>
    cases h : t.outcome with
    | ok articles =>
      cases ha : articles.isEmpty <;> simp [runParsersLoop, h, ha, ih]
    | err => simp [runParsersLoop, h, ih]

/-- One path is collected per task that produces a file. -/
theorem runParsersLoop_paths (tasks : List ScrapeTask) :
    (runParsersLoop tasks).1.length = tasks.countP producesFile := by
  induction tasks with
  | nil => rfl
  | cons t ts ih =>
    cases h : t.outcome with
    | ok articles =>
      cases ha : articles.isEmpty <;>
        simp [runParsersLoop, h, ha, ih, List.countP_cons, producesFile]
    | err => simp [runParsersLoop, h, ih, List.countP_cons, producesFile]

/-- C5: if exactly one of `N` scheduled tasks raises and every other task
produces at least one article, `run_parsers` still returns the temp-file
paths of the `N - 1` successful tasks and the progress counter ends at `N`. -/
theorem coordinator_isolation (tasks : List ScrapeTask)
    (hone : tasks.countP isErrTask = 1)
    (hok : ∀ t ∈ tasks, isErrTask t = true ∨ producesFile t = true) :
    (runParsersLoop tasks).1.length = tasks.length - 1 ∧
    (runParsersLoop tasks).2 = tasks.length := by
  refine ⟨?_, runParsersLoop_progress tasks⟩
  rw [runParsersLoop_paths]
  have herr_not : ∀ t : ScrapeTask, isErrTask t = true → producesFile t = false := by
    intro t h
    cases ho : t.outcome with
    | ok articles => simp [isErrTask, ho] at h
    | err => simp [producesFile, ho]
  induction tasks with
  | nil => simp at hone
  | cons t ts ih =>
    cases h : isErrTask t with
    | true =>
      rw [List.countP_cons_of_pos _ _ h] at hone
      have hzero : ts.countP isErrTask = 0 := by omega
      have hall : ∀ u ∈ ts, producesFile u = true := by
        intro u hu
        rcases hok u (List.mem_cons_of_mem t hu) with herr | hp
        · exact absurd (List.countP_pos_iff.mpr ⟨u, hu, herr⟩) (by omega)
        · exact hp
      rw [List.countP_cons_of_neg _ _ (by simp [herr_not t h])]
      rw [List.countP_eq_length.mpr hall]
      simp
    | false =>
      rw [List.countP_cons_of_neg _ _ (by simp [h])] at hone
      have hp : producesFile t = true := by
        rcases hok t (List.mem_cons_self t ts) with herr | hp
        · rw [h] at herr; exact absurd herr (by simp)
        · exact hp
      have hlen : 1 ≤ ts.length := by
        have := List.countP_le_length isErrTask (l := ts)
        omega
      rw [List.countP_cons_of_pos _ _ hp]
      have := ih hone (fun u hu => hok u (List.mem_cons_of_mem t hu))
      rw [List.length_cons]
      omega

/-- Witness for C5 at a concrete three-task list: one raising task and two
successful tasks with one article each. -/
theorem coordinator_isolation_witness :
    (runParsersLoop
      [⟨"A", "Forbes", "2023-01-01", "2023-12-31", .ok ["a1"]⟩,
       ⟨"A", "Vedomosti", "2023-01-01", "2023-12-31", .err⟩,
       ⟨"A", "Kommersant", "2023-01-01", "2023-12-31", .ok ["a2"]⟩]).1.length = 2 ∧
    (runParsersLoop
      [⟨"A", "Forbes", "2023-01-01", "2023-12-31", .ok ["a1"]⟩,
       ⟨"A", "Vedomosti", "2023-01-01", "2023-12-31", .err⟩,
       ⟨"A", "Kommersant", "2023-01-01", "2023-12-31", .ok ["a2"]⟩]).2 = 3 :=
  coordinator_isolation
    [⟨"A", "Forbes", "2023-01-01", "2023-12-31", .ok ["a1"]⟩,
     ⟨"A", "Vedomosti", "2023-01-01", "2023-12-31", .err⟩,
     ⟨"A", "Kommersant", "2023-01-01", "2023-12-31", .ok ["a2"]⟩]
    (by decide) (by decide)

/-! ## Text cleaning (`BaseParser.clean_text` / `SuperBaseParser.clean_text`) -/

/-- The non-breaking-space character `'\xa0'`. -/
def nbsp : Char := ' '

/-- `text.replace(pat, rep)` for a single-character pattern. -/
def replaceChar (pat rep : Char) (s : String) : String :=
  String.mk (s.data.map fun c => if c = pat then rep else c)

/-- `clean_text`: `None` or an empty string yields `""`
(`if not text: return ""`); otherwise every `'\xa0'` is replaced by a
regular space. -/
def clean_text (text : Option String) : String :=
  match text with
  | none => ""
  | some s => if s = "" then "" else replaceChar nbsp ' ' s

/-- The characters of `clean_text`'s output: each input character, with
`'\xa0'` mapped to `' '`. -/
theorem clean_text_data (s : String) :
    (clean_text (some s)).data = s.data.map fun c => if c = nbsp then ' ' else c := by
  by_cases h : s = ""
  · subst h; rfl
  · simp [clean_text, h, replaceChar]

/-- C6: `clean_text` replaces every non-breaking space by a regular space —
so `"Revenue\xa0grew"` becomes `"Revenue grew"` and no `'\xa0'` survives in
the output — and both absent (`None`) and empty input yield `""`. -/
theorem clean_text_spec :
    clean_text none = "" ∧
    clean_text (some "") = "" ∧
    (∀ s, (clean_text (some s)).data =
      s.data.map fun c => if c = nbsp then ' ' else c) ∧
    (∀ s, nbsp ∉ (clean_text (some s)).data) ∧
    clean_text (some "Revenue grew") = "Revenue grew" := by
  refine ⟨rfl, rfl, clean_text_data, ?_, by decide⟩
  intro s hmem
  rw [clean_text_data, List.mem_map] at hmem
  obtain ⟨c, _, hc⟩ := hmem
  by_cases h : c = nbsp
  · rw [if_pos h] at hc
    exact absurd hc (by decide)
  · rw [if_neg h] at hc
    exact h hc

/-! ## User-Agent selection in the retry wrapper

`random.choice(self.user_agents)` runs once, while building the `headers`
dict before the retry loop; the same `headers` object is passed to every
`requests.get` inside the loop.  Randomness is modelled as an explicit
stream of draws, `stream : Nat → Nat`, consumed in order. -/

/-- `self.user_agents` from `VedomostiParser.__init__`. -/
def userAgents : List String :=
  ["Mozilla/5.0 (Windows NT 10.0; Win64; x64) AppleWebKit/537.36 (KHTML, like Gecko) Chrome/91.0.4472.124 Safari/537.36",
   "Mozilla/5.0 (Macintosh; Intel Mac OS X 10_15_7) AppleWebKit/605.1.15 (KHTML, like Gecko) Version/14.1.1 Safari/605.1.15",
   "Mozilla/5.0 (Windows NT 10.0; Win64; x64; rv:89.0) Gecko/20100101 Firefox/89.0",
   "Mozilla/5.0 (X11; Linux x86_64) AppleWebKit/537.36 (KHTML, like Gecko) Chrome/92.0.4515.107 Safari/537.36"]

/-- `random.choice(self.user_agents)`, the random draw modelled as a natural
number taken modulo the pool size. -/
def chooseUA (draw : Nat) : String :=
  userAgents.getD (draw % userAgents.length) ""

/-- The retry loop again, recording the User-Agent header sent with each
transport call.  The `ua` argument is the single User-Agent fixed in the
`headers` dict before the loop starts. -/
def retryUAsFrom (ua : String) (transport : Nat → TResp) (attempt : Nat) : Nat → List String
  | 0 => []
  | remaining + 1 =>
    match transport attempt with
    | .status code =>
      if code = 418 then ua :: retryUAsFrom ua transport (attempt + 1) remaining
      else [ua]
    | .exc =>
      if attempt < maxRetries - 1 then ua :: retryUAsFrom ua transport (attempt + 1) remaining
      else [ua]

/-- The User-Agents sent by one invocation of `_make_request_with_retry`:
the header is built once, from the first random draw, before the loop. -/
def requestUAs (stream : Nat → Nat) (transport : Nat → TResp) : List String :=
  retryUAsFrom (chooseUA (stream 0)) transport 0 maxRetries

/-- The claim's reading of the loop: a User-Agent freshly drawn from the
pool at every attempt, consuming one draw per attempt. -/
def requestUAsFresh (stream : Nat → Nat) (transport : Nat → TResp) (attempt : Nat) :
    Nat → List String
  | 0 => []
  | remaining + 1 =>
    match transport attempt with
    | .status code =>
      if code = 418 then
        chooseUA (stream attempt) :: requestUAsFresh stream transport (attempt + 1) remaining
      else [chooseUA (stream attempt)]
    | .exc =>
      if attempt < maxRetries - 1 then
        chooseUA (stream attempt) :: requestUAsFresh stream transport (attempt + 1) remaining
      else [chooseUA (stream attempt)]

/-- C8 counterexample: with the identity draw stream and an always-418
transport, all 5 attempts carry the very same User-Agent (the one from draw
0), even though fresh per-attempt draws would have produced differing
User-Agents — two distinct attempts within one invocation can never carry
different User-Agents. -/
theorem user_agent_fixed_before_loop :
    requestUAs (fun n => n) (fun _ => .status 418) = List.replicate 5 (chooseUA 0) ∧
    requestUAsFresh (fun n => n) (fun _ => .status 418) 0 maxRetries ≠
      requestUAs (fun n => n) (fun _ => .status 418) ∧
    chooseUA 1 ≠ chooseUA 0 := by
  refine ⟨rfl, ?_, by decide⟩
  decide

/-- `retryUAsFrom` repeats the fixed `ua` once per transport call. -/
theorem retryUAsFrom_eq_replicate (remaining : Nat) :
    ∀ (ua : String) (transport : Nat → TResp) (attempt : Nat),
      retryUAsFrom ua transport attempt remaining =
        List.replicate (retryFrom transport attempt remaining).2 ua := by
  induction remaining with
  | zero => intro ua transport attempt; rfl
  | succ r ih =>
    intro ua transport attempt
    simp only [retryUAsFrom, retryFrom]
    cases transport attempt with
    | status code =>
      by_cases h : code = 418 <;> simp [h, ih, List.replicate_succ]
    | exc =>
      by_cases h : attempt < maxRetries - 1 <;> simp [h, ih, List.replicate_succ]

/-- Every draw selects an element of the fixed pool. -/
theorem chooseUA_mem (draw : Nat) : chooseUA draw ∈ userAgents := by
  have h : draw % userAgents.length < 4 := Nat.mod_lt _ (by decide)
  unfold chooseUA
  generalize draw % userAgents.length = i at h ⊢
  interval_cases i <;> decide

/-- C8 amended: within one invocation of the retry wrapper the User-Agent is
drawn from the fixed pool once, before the loop, and that same User-Agent is
sent on every attempt of that invocation; distinct invocations draw
independently (the choice depends only on the stream's first draw). -/
theorem user_agent_per_invocation (stream : Nat → Nat) (transport : Nat → TResp) :
    requestUAs stream transport =
      List.replicate (makeRequestWithRetry transport).2 (chooseUA (stream 0)) ∧
    chooseUA (stream 0) ∈ userAgents :=
  ⟨retryUAsFrom_eq_replicate maxRetries (chooseUA (stream 0)) transport 0,
   chooseUA_mem (stream 0)⟩

/-! ## Date parsing (`VedomostiParser._parse_date`) -/

/-- A `datetime` value: calendar date, time of day, and an optional
timezone offset in minutes. -/
structure PyDateTime where
  year : Nat
  month : Nat
  day : Nat
  hour : Nat
  minute : Nat
  second : Nat
  tzOffsetMinutes : Option Int
  deriving DecidableEq, Repr

/-- The Gregorian leap-year rule used by `datetime`. -/
def isLeapYear (y : Nat) : Bool :=
  decide ((y % 4 = 0 ∧ y % 100 ≠ 0) ∨ y % 400 = 0)

/-- Days in a month, as `datetime` validates them. -/
def daysInMonth (y m : Nat) : Nat :=
  if m = 2 then (if isLeapYear y then 29 else 28)
  else if m = 4 ∨ m = 6 ∨ m = 9 ∨ m = 11 then 30
  else 31

/-- The date validation `datetime(year, month, day)` performs
(`MINYEAR ≤ year ≤ MAXYEAR`, real calendar month and day). -/
def validYMD (y m d : Nat) : Bool :=
  decide (1 ≤ y ∧ y ≤ 9999 ∧ 1 ≤ m ∧ m ≤ 12 ∧ 1 ≤ d ∧ d ≤ daysInMonth y m)

/-- Value of a digit-character list read in base 10. -/
def digitsVal (cs : List Char) : Nat :=
  cs.foldl (fun a c => a * 10 + (c.toNat - 48)) 0

/-- Modelled from the stdlib: `datetime.strptime(s, "%Y-%m-%d")` for a
four-digit year — `some` on a valid `YYYY-MM-DD` string, `none` modelling
the `ValueError` raised on anything else. -/
def strptimeYMD (s : String) : Option PyDateTime :=
  match s.data with
  | [y1, y2, y3, y4, '-', m1, m2, '-', d1, d2] =>
    if [y1, y2, y3, y4, m1, m2, d1, d2].all Char.isDigit then
      let y := digitsVal [y1, y2, y3, y4]
      let m := digitsVal [m1, m2]
      let d := digitsVal [d1, d2]
      if validYMD y m d then some ⟨y, m, d, 0, 0, 0, none⟩ else none
    else none
  | _ => none

/-- Modelled from the stdlib: the time-of-day part accepted by
`datetime.fromisoformat` in the shapes this repository receives —
`HH:MM:SS`, optionally followed by a `+HH:MM` / `-HH:MM` offset. -/
def parseIsoTime (cs : List Char) : Option (Nat × Nat × Nat × Option Int) :=
  match cs with
  | [h1, h2, ':', m1, m2, ':', s1, s2] =>
    if [h1, h2, m1, m2, s1, s2].all Char.isDigit then
      let h := digitsVal [h1, h2]
      let mi := digitsVal [m1, m2]
      let se := digitsVal [s1, s2]
      if h ≤ 23 ∧ mi ≤ 59 ∧ se ≤ 59 then some (h, mi, se, none) else none
    else none
  | [h1, h2, ':', m1, m2, ':', s1, s2, sg, o1, o2, ':', o3, o4] =>
    if (sg = '+' ∨ sg = '-') ∧ [h1, h2, m1, m2, s1, s2, o1, o2, o3, o4].all Char.isDigit then
      let h := digitsVal [h1, h2]
      let mi := digitsVal [m1, m2]
      let se := digitsVal [s1, s2]
      let oh := digitsVal [o1, o2]
      let om := digitsVal [o3, o4]
      if h ≤ 23 ∧ mi ≤ 59 ∧ se ≤ 59 ∧ oh ≤ 23 ∧ om ≤ 59 then
        let off : Int := if sg = '-' then -((oh * 60 + om : Nat) : Int) else ((oh * 60 + om : Nat) : Int)
        some (h, mi, se, some off)
      else none
    else none
  | _ => none

/-- Modelled from the stdlib: `datetime.fromisoformat` on
`YYYY-MM-DD[THH:MM:SS[±HH:MM]]` strings; `none` models its `ValueError`. -/
def fromisoformat (s : String) : Option PyDateTime :=
  let dateChars := s.data.takeWhile (fun c => c ≠ 'T')
  let rest := s.data.dropWhile (fun c => c ≠ 'T')
  match strptimeYMD (String.mk dateChars) with
  | none => none
  | some d =>
    match rest with
    | [] => some d
    | _ :: timeChars =>
      match parseIsoTime timeChars with
      | none => none
      | some (h, mi, se, off) =>
        some { d with hour := h, minute := mi, second := se, tzOffsetMinutes := off }

/-- `date_str.replace('Z', '+00:00')`. -/
def replaceZ (s : String) : String :=
  String.mk (s.data.flatMap fun c => if c = 'Z' then ['+', '0', '0', ':', '0', '0'] else [c])

/-- The `try` body of `_parse_date`: if the string contains `'T'`, parse it
with `fromisoformat` after replacing `'Z'`; otherwise parse its first 10
characters with `strptime("%Y-%m-%d")`.  `.error` models a raised
exception. -/
def parseDateBody (s : String) : Except String PyDateTime :=
  if s.data.contains 'T' then
    match fromisoformat (replaceZ s) with
    | some d => .ok d
    | none => .error "ValueError"
  else
    match strptimeYMD (String.mk (s.data.take 10)) with
    | some d => .ok d
    | none => .error "ValueError"

/-- `_parse_date`: the `except` handler catches every exception and falls
back to `datetime.now()`, passed here explicitly as `now`. -/
def parse_date (s : String) (now : PyDateTime) : PyDateTime :=
  match parseDateBody s with
  | .ok d => d
  | .error _ => now

/-- C10: `_parse_date` is total — every parse failure is caught and answered
with `now`, every success is returned as parsed; strings containing `'T'` go
through `fromisoformat` (after `'Z'` replacement), others through
`strptime("%Y-%m-%d")` on their first 10 characters; concrete inputs:
a plain date, a `Z`-suffixed ISO timestamp, garbage, and an invalid month. -/
theorem parse_date_total (s : String) (now : PyDateTime) :
    (∀ e, parseDateBody s = .error e → parse_date s now = now) ∧
    (∀ d, parseDateBody s = .ok d → parse_date s now = d) ∧
    ('T' ∈ s.data →
      parse_date s now = (fromisoformat (replaceZ s)).getD now) ∧
    ('T' ∉ s.data →
      parse_date s now = (strptimeYMD (String.mk (s.data.take 10))).getD now) ∧
    parse_date "2023-05-17" now = ⟨2023, 5, 17, 0, 0, 0, none⟩ ∧
    parse_date "2023-05-17T10:20:30Z" now = ⟨2023, 5, 17, 10, 20, 30, some 0⟩ ∧
    parse_date "garbage" now = now ∧
    parse_date "2023-13-01" now = now := by
  refine ⟨?_, ?_, ?_, ?_, rfl, rfl, rfl, rfl⟩
  · intro e h; unfold parse_date; rw [h]
  · intro d h; unfold parse_date; rw [h]
  · intro hT
    cases hf : fromisoformat (replaceZ s) <;>
      simp [parse_date, parseDateBody, hT, hf]
  · intro hT
    cases hf : strptimeYMD (String.mk (s.data.take 10)) <;>
      simp [parse_date, parseDateBody, hT, hf]

/-- Witness for C10: the fallback clause applied at the unparseable input
`"garbage"`. -/
theorem parse_date_total_witness :
    parse_date "garbage" ⟨2024, 1, 1, 0, 0, 0, none⟩ = ⟨2024, 1, 1, 0, 0, 0, none⟩ :=
  (parse_date_total "garbage" ⟨2024, 1, 1, 0, 0, 0, none⟩).1 "ValueError" rfl

end EsgParsers
